import Mathlib

/-!
Shallow embedding of the Unleash Toolbar override-resolution and
state-synchronization engine.

Sources embedded here:
* `src/state.ts` (two revisions; the repository snapshot contains both, the
  first carrying cookie sync and per-flag reset events): namespaces
  `StateV1` (first revision) and `StateV2` (second revision).
* `src/wrapper.ts` (`applyFlagOverride`, `wrapUnleashClient`,
  `isWrappedClient`): namespace `Wrapper`.
* `src/next/server.ts` (two revisions of `applyToolbarOverrides`):
  namespaces `ServerV1` and `ServerV2`.
* Section 4.1.1 of the specification (reference override-resolution
  algorithm, used for the refinement claim): namespace `SpecRef`.

Modelling conventions:
* JavaScript objects keyed by flag name (`state.flags`) become insertion
  ordered association lists `List (String × FlagMetadata)`; property read
  `obj[name]` is `flagsLookup`, property write `obj[name] = v` is
  `flagsUpsert` (replace in place, else append), matching JS key-order
  semantics.
* `boolean | UnleashVariant | null` becomes the inductive `FlagValue`.
* A thrown evaluator callback is modelled by the callback returning `none`.
* Event timestamps (`Date.now()`) are wall-clock values and are omitted
  from the event model; claims about events count and order only.
* `JSON.parse(JSON.stringify(x))` deep cloning is the identity on this
  pure data model.
* Methods mutate `this.state` and emit events through the emitter; they are
  embedded as functions `ToolbarState → ... → ToolbarState × List ToolbarEvent`
  returning the new state and the emitted events in order.
-/

/-- Variant payload `{type, value}` from `UnleashVariant` in types.ts. -/
structure VariantPayload where
  type : String
  value : String
deriving Repr, DecidableEq

/-- `UnleashVariant` from types.ts: `{name, enabled, payload?}`. -/
structure UnleashVariant where
  name : String
  enabled : Bool
  payload : Option VariantPayload := none
deriving Repr, DecidableEq

/-- The union `boolean | UnleashVariant | null` used for default and
effective flag values. -/
inductive FlagValue where
  | bool (b : Bool)
  | variant (v : UnleashVariant)
  | null
deriving Repr, DecidableEq

/-- `FlagOverride` from types.ts:
`{type: 'flag'; value: boolean} | {type: 'variant'; variantKey: string}`. -/
inductive FlagOverride where
  | flag (value : Bool)
  | variant (variantKey : String)
deriving Repr, DecidableEq

/-- The `flagType` enum `'flag' | 'variant'`. -/
inductive FlagType where
  | flag
  | variant
deriving Repr, DecidableEq

/-- `UnleashContext` from types.ts; the known optional fields plus the
free-form `properties` string map (an association list here). The
`[key: string]: any` index signature is not modelled. An absent key is
`none`. -/
structure UnleashContext where
  userId : Option String := none
  sessionId : Option String := none
  remoteAddress : Option String := none
  environment : Option String := none
  appName : Option String := none
  properties : Option (List (String × String)) := none
deriving Repr, DecidableEq

/-- `FlagMetadata` from types.ts. -/
structure FlagMetadata where
  flagType : FlagType
  lastDefaultValue : FlagValue
  lastEffectiveValue : FlagValue
  lastContext : Option UnleashContext
  override : Option FlagOverride
deriving Repr, DecidableEq

/-- `ToolbarState` from types.ts; `flags` is the insertion-ordered map. -/
structure ToolbarState where
  flags : List (String × FlagMetadata)
  contextOverrides : UnleashContext
  isVisible : Option Bool := none
deriving Repr, DecidableEq

/-- `ToolbarEvent` from types.ts, with wall-clock timestamps omitted. -/
inductive ToolbarEvent where
  | flag_override_changed (name : String) (override : Option FlagOverride)
  | context_override_changed (contextOverrides : UnleashContext)
  | sdk_updated
deriving Repr, DecidableEq

/-- JS property read `flags[name]` on the insertion-ordered flag map. -/
def flagsLookup : List (String × FlagMetadata) → String → Option FlagMetadata
  | [], _ => none
  | p :: rest, name => if p.1 == name then some p.2 else flagsLookup rest name

/-- JS property write `flags[name] = m`: replaces in place when the key
exists, appends otherwise (JS objects keep first-insertion key order). -/
def flagsUpsert : List (String × FlagMetadata) → String → FlagMetadata →
    List (String × FlagMetadata)
  | [], name, m => [(name, m)]
  | p :: rest, name, m =>
    if p.1 == name then (name, m) :: rest else p :: flagsUpsert rest name m

namespace StateV1

/-- `ToolbarStateManager.applyOverride` from the first revision of
src/state.ts. The JS guard
`typeof defaultValue === 'object' && defaultValue !== null && 'name' in defaultValue`
holds exactly for variant-shaped values; the spread copies the remaining
fields (payload). The unreachable exhaustiveness branch
(`const _exhaustive: never = override`) has no counterpart since the match
is total. -/
def applyOverride (defaultValue : FlagValue) (override : Option FlagOverride) :
    FlagValue :=
  match override with
  | none => defaultValue
  | some (FlagOverride.flag value) => FlagValue.bool value
  | some (FlagOverride.variant variantKey) =>
    match defaultValue with
    | FlagValue.variant v =>
      FlagValue.variant { v with name := variantKey, enabled := true }
    | _ => FlagValue.variant { name := variantKey, enabled := true }

end StateV1

namespace StateV2

/-- `ToolbarStateManager.applyOverride` from the second revision of
src/state.ts; the final `return defaultValue` fallthrough is unreachable
for the tagged union and has no counterpart in the total match. -/
def applyOverride (defaultValue : FlagValue) (override : Option FlagOverride) :
    FlagValue :=
  match override with
  | none => defaultValue
  | some (FlagOverride.flag value) => FlagValue.bool value
  | some (FlagOverride.variant variantKey) =>
    match defaultValue with
    | FlagValue.variant v =>
      FlagValue.variant { v with name := variantKey, enabled := true }
    | _ => FlagValue.variant { name := variantKey, enabled := true }

end StateV2

namespace Wrapper

/-- `applyFlagOverride` from src/wrapper.ts (the interceptor's copy of the
override-resolution algorithm); its final `return defaultValue`
fallthrough is unreachable for the tagged union. -/
def applyFlagOverride (defaultValue : FlagValue) (override : Option FlagOverride) :
    FlagValue :=
  match override with
  | none => defaultValue
  | some (FlagOverride.flag value) => FlagValue.bool value
  | some (FlagOverride.variant variantKey) =>
    match defaultValue with
    | FlagValue.variant v =>
      FlagValue.variant { v with name := variantKey, enabled := true }
    | _ => FlagValue.variant { name := variantKey, enabled := true }

end Wrapper

namespace SpecRef

/-- Reference override-resolution algorithm, written from the words of
section 4.1.1 of the specification: no override returns the default
unchanged; a flag-override returns its boolean; a variant-override returns
a shallow copy of a variant-shaped default with `name` replaced by the key
and `enabled` forced true (payload passes through), otherwise the
synthesized minimal variant `{name: key, enabled: true}`. -/
def applyOverride (defaultValue : FlagValue) (override : Option FlagOverride) :
    FlagValue :=
  match override with
  | none => defaultValue
  | some (FlagOverride.flag value) => FlagValue.bool value
  | some (FlagOverride.variant key) =>
    match defaultValue with
    | FlagValue.variant v =>
      FlagValue.variant { v with name := key, enabled := true }
    | _ => FlagValue.variant { name := key, enabled := true }

end SpecRef

namespace StateV1

/-- `ToolbarStateManager.recordEvaluation` from the first revision of
src/state.ts (the second revision's body is identical). The stored
`override` is `existing?.override || null`: an override object is always
truthy, so the existing override is preserved verbatim. Emits
`sdk_updated` only when the flag is new. -/
def recordEvaluation (s : ToolbarState) (name : String) (flagType : FlagType)
    (defaultValue effectiveValue : FlagValue) (context : UnleashContext) :
    ToolbarState × List ToolbarEvent :=
  let existing := flagsLookup s.flags name
  let isNewFlag := existing.isNone
  let meta : FlagMetadata :=
    { flagType := flagType
      lastDefaultValue := defaultValue
      lastEffectiveValue := effectiveValue
      lastContext := some context
      override :=
        match existing with
        | some m => m.override
        | none => none }
  ({ s with flags := flagsUpsert s.flags name meta },
    if isNewFlag then [ToolbarEvent.sdk_updated] else [])

/-- `ToolbarStateManager.setFlagOverride` from the first revision of
src/state.ts: creates metadata when missing (type inferred from the
override's tag, null defaults, effective value computed by
`applyOverride` against a null default), otherwise stores the override and
recomputes the effective value from `lastDefaultValue`; always emits one
`flag_override_changed`. -/
def setFlagOverride (s : ToolbarState) (name : String)
    (override : Option FlagOverride) : ToolbarState × List ToolbarEvent :=
  let flags' :=
    match flagsLookup s.flags name with
    | none =>
      let flagType :=
        match override with
        | some (FlagOverride.variant _) => FlagType.variant
        | _ => FlagType.flag
      flagsUpsert s.flags name
        { flagType := flagType
          lastDefaultValue := FlagValue.null
          lastEffectiveValue := applyOverride FlagValue.null override
          lastContext := none
          override := override }
    | some m =>
      flagsUpsert s.flags name
        { m with
            override := override
            lastEffectiveValue := applyOverride m.lastDefaultValue override }
  ({ s with flags := flags' }, [ToolbarEvent.flag_override_changed name override])

/-- `ToolbarStateManager.getFlagOverride`:
`this.state.flags[name]?.override || null` (an override object is truthy,
so this is exactly the stored optional override). -/
def getFlagOverride (s : ToolbarState) (name : String) : Option FlagOverride :=
  match flagsLookup s.flags name with
  | some m => m.override
  | none => none

/-- JS object spread `{...base, ...update}` on partial contexts: a field
present in `update` wins, otherwise the field of `base` survives; the
`properties` key is an ordinary key here, so a `properties` map present in
`update` replaces the whole map. -/
def spreadContext (base update : UnleashContext) : UnleashContext :=
  { userId := update.userId <|> base.userId
    sessionId := update.sessionId <|> base.sessionId
    remoteAddress := update.remoteAddress <|> base.remoteAddress
    environment := update.environment <|> base.environment
    appName := update.appName <|> base.appName
    properties := update.properties <|> base.properties }

/-- `ToolbarStateManager.setContextOverride` (identical in both
revisions): `this.state.contextOverrides = {...this.state.contextOverrides,
...context}`, then emits `context_override_changed` with the full
resulting override map. -/
def setContextOverride (s : ToolbarState) (context : UnleashContext) :
    ToolbarState × List ToolbarEvent :=
  let merged := spreadContext s.contextOverrides context
  ({ s with contextOverrides := merged },
    [ToolbarEvent.context_override_changed merged])

/-- `ToolbarStateManager.resetOverrides` from the first revision of
src/state.ts: for every known flag (whatever its current override) the
override is cleared, the effective value is set back to the default, and a
`flag_override_changed` event is emitted inside the loop, one per flag in
insertion order. -/
def resetOverrides (s : ToolbarState) : ToolbarState × List ToolbarEvent :=
  ({ s with
      flags := s.flags.map (fun p =>
        (p.1, { p.2 with
                  override := none
                  lastEffectiveValue := p.2.lastDefaultValue })) },
    s.flags.map (fun p => ToolbarEvent.flag_override_changed p.1 none))

/-- `ToolbarStateManager.reEvaluateAllFlags` (identical in both
revisions): each flag is re-evaluated through the callback inside a
try/catch (a throwing callback, modelled by `none`, leaves that flag's
metadata untouched); exactly one `sdk_updated` is emitted after the full
pass. -/
def reEvaluateAllFlags (s : ToolbarState)
    (evaluator : String → Option (FlagValue × FlagValue)) :
    ToolbarState × List ToolbarEvent :=
  ({ s with
      flags := s.flags.map (fun p =>
        (p.1,
          match evaluator p.1 with
          | some r =>
            { p.2 with lastDefaultValue := r.1, lastEffectiveValue := r.2 }
          | none => p.2)) },
    [ToolbarEvent.sdk_updated])

end StateV1

namespace StateV2

/-- `ToolbarStateManager.setFlagOverride` from the second revision of
src/state.ts; it differs from the first revision in one place: metadata
created for a never-evaluated flag gets `lastEffectiveValue: null` instead
of the override applied to a null default. -/
def setFlagOverride (s : ToolbarState) (name : String)
    (override : Option FlagOverride) : ToolbarState × List ToolbarEvent :=
  let flags' :=
    match flagsLookup s.flags name with
    | none =>
      let flagType :=
        match override with
        | some (FlagOverride.variant _) => FlagType.variant
        | _ => FlagType.flag
      flagsUpsert s.flags name
        { flagType := flagType
          lastDefaultValue := FlagValue.null
          lastEffectiveValue := FlagValue.null
          lastContext := none
          override := override }
    | some m =>
      flagsUpsert s.flags name
        { m with
            override := override
            lastEffectiveValue := applyOverride m.lastDefaultValue override }
  ({ s with flags := flags' }, [ToolbarEvent.flag_override_changed name override])

/-- `ToolbarStateManager.resetOverrides` from the second revision of
src/state.ts: clears every override and restores effective values, then
emits a single `sdk_updated` event and no per-flag events. -/
def resetOverrides (s : ToolbarState) : ToolbarState × List ToolbarEvent :=
  ({ s with
      flags := s.flags.map (fun p =>
        (p.1, { p.2 with
                  override := none
                  lastEffectiveValue := p.2.lastDefaultValue })) },
    [ToolbarEvent.sdk_updated])

end StateV2

/-- Activation strategy entry of a feature definition; the code only ever
constructs `{name: 'default', parameters: {}, constraints: []}`. -/
structure StrategyDef where
  name : String
  parameters : List (String × String) := []
  constraints : List String := []
deriving Repr, DecidableEq

/-- The always-on default strategy the server applicator substitutes. -/
def defaultStrategy : StrategyDef :=
  { name := "default", parameters := [], constraints := [] }

/-- Variant entry of a feature definition (unleash-client
`VariantDefinition`); the spread keeps fields other than the ones
rewritten. -/
structure VariantDef where
  name : String
  weight : Nat
  weightType : Option String := none
  stickiness : Option String := none
deriving Repr, DecidableEq

/-- One entry of the `features` array of a flag-definitions payload. -/
structure FeatureDefinition where
  name : String
  enabled : Bool
  strategies : Option (List StrategyDef) := none
  variants : Option (List VariantDef) := none
deriving Repr, DecidableEq

/-- `ClientFeaturesResponse`: the definitions payload
`{features: [...]})`. -/
structure ClientFeaturesResponse where
  features : Option (List FeatureDefinition) := none
deriving Repr, DecidableEq

namespace ServerV1

/-- `applyToolbarOverrides` from the first revision of src/next/server.ts,
taken after the cookie has been read and parsed (`state = none` models a
missing or unparsable cookie, in which case the input is returned
unchanged). JS notes reflected here: `state.flags[feature.name]?.override`
with the `if (!override)` guard is the `Option.bind`; the guard
`override.type === 'variant' && feature.variants` only fails when the
`variants` field is absent (an empty array is truthy); the
`JSON.parse(JSON.stringify(...))` clone is the identity on pure data; the
trailing loop appends synthesized definitions for overridden flags the
payload does not know, in `state.flags` entry order. -/
def applyToolbarOverrides (definitions : ClientFeaturesResponse)
    (state : Option ToolbarState) : ClientFeaturesResponse :=
  match state with
  | none => definitions
  | some st =>
    let features0 :=
      match definitions.features with
      | some fs => fs
      | none => []
    let existingFeatureNames := features0.map (fun f => f.name)
    let mapped := features0.map (fun feature =>
      match (flagsLookup st.flags feature.name).bind (fun m => m.override) with
      | none => feature
      | some (FlagOverride.flag value) =>
        { feature with
            enabled := value
            strategies :=
              if value then
                match feature.strategies with
                | some ss => if ss.length > 0 then some ss else some [defaultStrategy]
                | none => some [defaultStrategy]
              else some [] }
      | some (FlagOverride.variant variantKey) =>
        match feature.variants with
        | some vs =>
          { feature with
              enabled := true
              strategies :=
                match feature.strategies with
                | some ss => if ss.length > 0 then some ss else some [defaultStrategy]
                | none => some [defaultStrategy]
              variants := some (vs.map (fun v =>
                { v with weight := if v.name == variantKey then 1000 else 0 })) }
        | none => feature)
    let synthesized := st.flags.filterMap (fun p =>
      if existingFeatureNames.contains p.1 then none
      else
        match p.2.override with
        | some (FlagOverride.flag value) =>
          some { name := p.1, enabled := value,
                 strategies := if value then some [defaultStrategy] else some [] }
        | some (FlagOverride.variant variantKey) =>
          some { name := p.1, enabled := true,
                 strategies := some [defaultStrategy],
                 variants := some [{ name := variantKey, weight := 1000 }] }
        | none => none)
    { definitions with features := some (mapped ++ synthesized) }

end ServerV1

namespace ServerV2

/-- `applyToolbarOverrides` from the second revision of src/next/server.ts
(same conventions as `ServerV1.applyToolbarOverrides`); this revision
always substitutes the single default strategy when forcing a flag on,
stamps rewritten variants with `weightType: 'fix'`, leaves strategies
alone on a variant override, and synthesizes nothing for unknown flags.
A payload without a `features` array fails the `Array.isArray` guard and
is returned (as a clone, the identity here). -/
def applyToolbarOverrides (definitions : ClientFeaturesResponse)
    (state : Option ToolbarState) : ClientFeaturesResponse :=
  match state with
  | none => definitions
  | some st =>
    match definitions.features with
    | none => definitions
    | some fs =>
      { definitions with
          features := some (fs.map (fun feature =>
            match (flagsLookup st.flags feature.name).bind (fun m => m.override) with
            | none => feature
            | some (FlagOverride.flag value) =>
              { feature with
                  enabled := value
                  strategies := if value then some [defaultStrategy] else some [] }
            | some (FlagOverride.variant variantKey) =>
              match feature.variants with
              | some vs =>
                { feature with
                    enabled := true
                    variants := some (vs.map (fun v =>
                      { v with
                          weight := if v.name == variantKey then 1000 else 0
                          weightType := some "fix" })) }
              | none => feature)) }

end ServerV2

namespace Wrapper

/-- Behavior surface of an evaluation client relevant to the wrapping
layer. In the untyped source, `isEnabled` on a wrapped client returns
whatever `applyFlagOverride` produced (`effectiveValue as boolean`), so
both evaluation methods are embedded with `FlagValue` results. The
stateful side of an intercepted evaluation (`recordEvaluation`) is the
separate `StateV1.recordEvaluation` transition. -/
structure ClientCore where
  isEnabledFn : String → FlagValue
  getVariantFn : String → FlagValue

/-- An evaluation client: either a bare client or one produced by
wrapping, which carries the `__original` reference that
`isWrappedClient` tests for. -/
inductive UnleashClient where
  | base (core : ClientCore)
  | wrapped (original : UnleashClient) (core : ClientCore)

/-- `isWrappedClient` from src/wrapper.ts: `'__original' in client`. -/
def isWrappedClient : UnleashClient → Bool
  | UnleashClient.base _ => false
  | UnleashClient.wrapped _ _ => true

/-- Evaluation surface of a client (its own methods). -/
def clientCore : UnleashClient → ClientCore
  | UnleashClient.base c => c
  | UnleashClient.wrapped _ c => c

/-- `wrapUnleashClient` from src/wrapper.ts: returns an already-wrapped
client as-is, otherwise builds the wrapped client whose `__original` is
the base client and whose evaluation methods resolve the live value
through `applyFlagOverride` against the state manager's override (the
value-level flow of the source's `isEnabled`/`getVariant`; context
merging, recording and event bridging are side effects on the state
manager embedded by the `StateV1` transitions). -/
def wrapUnleashClient (baseClient : UnleashClient) (stateManager : ToolbarState) :
    UnleashClient :=
  if isWrappedClient baseClient then baseClient
  else
    UnleashClient.wrapped baseClient
      { isEnabledFn := fun toggleName =>
          applyFlagOverride ((clientCore baseClient).isEnabledFn toggleName)
            (StateV1.getFlagOverride stateManager toggleName)
        getVariantFn := fun toggleName =>
          applyFlagOverride ((clientCore baseClient).getVariantFn toggleName)
            (StateV1.getFlagOverride stateManager toggleName) }

end Wrapper

/-- Sample metadata: an evaluated boolean flag carrying a forced-off
override. -/
def sampleMetaFlag : FlagMetadata :=
  { flagType := FlagType.flag
    lastDefaultValue := FlagValue.bool true
    lastEffectiveValue := FlagValue.bool false
    lastContext := none
    override := some (FlagOverride.flag false) }

/-- Sample metadata: an evaluated boolean flag with no override. -/
def sampleMetaNoOverride : FlagMetadata :=
  { flagType := FlagType.flag
    lastDefaultValue := FlagValue.bool true
    lastEffectiveValue := FlagValue.bool true
    lastContext := none
    override := none }

/-- Sample state: one flag with an override. -/
def sampleStateOne : ToolbarState :=
  { flags := [("feature", sampleMetaFlag)], contextOverrides := {} }

/-- Sample state: one flag with no override. -/
def sampleStateNoOverride : ToolbarState :=
  { flags := [("feature", sampleMetaNoOverride)], contextOverrides := {} }

/-- Sample state: empty engine state. -/
def sampleStateEmpty : ToolbarState :=
  { flags := [], contextOverrides := {} }

/-- Sample state with two evaluated flags, used to exercise a mixed
re-evaluation pass. -/
def sampleStateTwo : ToolbarState :=
  { flags := [("good", sampleMetaNoOverride), ("bad", sampleMetaFlag)],
    contextOverrides := {} }

/-- Sample evaluator callback that succeeds for "good" and throws
(returns `none`) for every other flag. -/
def sampleEvaluator : String → Option (FlagValue × FlagValue) := fun n =>
  if n == "good" then some (FlagValue.bool false, FlagValue.bool false) else none

/-- Sample metadata: a flag whose override forces it on. -/
def sampleMetaFlagOn : FlagMetadata :=
  { flagType := FlagType.flag
    lastDefaultValue := FlagValue.bool false
    lastEffectiveValue := FlagValue.bool true
    lastContext := none
    override := some (FlagOverride.flag true) }

/-- Sample state: one flag with a forced-on override. -/
def sampleStateOn : ToolbarState :=
  { flags := [("feature", sampleMetaFlagOn)], contextOverrides := {} }

/-- Sample metadata: a variant flag carrying a variant override for
"beta". -/
def sampleMetaVariantOverride : FlagMetadata :=
  { flagType := FlagType.variant
    lastDefaultValue := FlagValue.null
    lastEffectiveValue := FlagValue.variant { name := "beta", enabled := true }
    lastContext := none
    override := some (FlagOverride.variant "beta") }

/-- Sample state: one flag with a variant override for "beta". -/
def sampleStateVariantOverride : ToolbarState :=
  { flags := [("feature", sampleMetaVariantOverride)], contextOverrides := {} }

/-- Sample state whose context overrides already hold a custom property. -/
def sampleStateCtxProps : ToolbarState :=
  { flags := [], contextOverrides := { properties := some [("a", "1")] } }

/-- Sample partial-context argument carrying only a different custom
property. -/
def sampleCtxArg : UnleashContext := { properties := some [("b", "2")] }

/-- Sample non-default activation strategy. -/
def sampleStrategy : StrategyDef :=
  { name := "gradualRollout", parameters := [("rollout", "25")], constraints := [] }

/-- Sample definitions payload: one disabled feature with a non-empty
strategy list. -/
def sampleFeatureNonEmptyStrategies : FeatureDefinition :=
  { name := "feature", enabled := false, strategies := some [sampleStrategy] }

/-- Sample definitions payload wrapping
`sampleFeatureNonEmptyStrategies`. -/
def sampleDefsNonEmptyStrategies : ClientFeaturesResponse :=
  { features := some [sampleFeatureNonEmptyStrategies] }

/-- Sample feature definition with an empty strategy list (the spec
scenario for a forced-on flag). -/
def sampleFeatureEmptyStrategies : FeatureDefinition :=
  { name := "feature", enabled := false, strategies := some [] }

/-- Sample definitions payload wrapping `sampleFeatureEmptyStrategies`. -/
def sampleDefsEmptyStrategies : ClientFeaturesResponse :=
  { features := some [sampleFeatureEmptyStrategies] }

/-- Sample feature definition without a `variants` field. -/
def sampleFeatureNoVariants : FeatureDefinition :=
  { name := "feature", enabled := false }

/-- Sample definitions payload wrapping `sampleFeatureNoVariants`. -/
def sampleDefsNoVariants : ClientFeaturesResponse :=
  { features := some [sampleFeatureNoVariants] }

/-- Sample feature definition with two equal-weight variants. -/
def sampleFeatureWithVariants : FeatureDefinition :=
  { name := "feature", enabled := false, strategies := some []
    variants := some [{ name := "control", weight := 500 },
                      { name := "beta", weight := 500 }] }

/-- Sample definitions payload wrapping `sampleFeatureWithVariants`. -/
def sampleDefsWithVariants : ClientFeaturesResponse :=
  { features := some [sampleFeatureWithVariants] }

/-- Looking a key up after an in-place JS write of that key finds the
written value. -/
theorem flagsLookup_upsert_self (l : List (String × FlagMetadata))
    (name : String) (m : FlagMetadata) :
    flagsLookup (flagsUpsert l name m) name = some m := by
  induction l with
  | nil => simp [flagsUpsert, flagsLookup]
  | cons p rest ih =>
    by_cases h : p.1 == name
    · simp [flagsUpsert, flagsLookup, h]
    · simp only [flagsUpsert, flagsLookup, h, if_neg, Bool.false_eq_true,
        ite_false]
      exact ih

/-- Looking up a key in a key-preserving map of the flag table applies the
per-entry function to the looked-up value. -/
theorem flagsLookup_map_keyed (f : String × FlagMetadata → String × FlagMetadata)
    (g : String → FlagMetadata → FlagMetadata)
    (hf : ∀ p, f p = (p.1, g p.1 p.2)) :
    ∀ (l : List (String × FlagMetadata)) (name : String),
      flagsLookup (l.map f) name = (flagsLookup l name).map (g name)
  | [], _ => rfl
  | p :: rest, name => by
    rw [List.map_cons, hf p]
    by_cases h : p.1 == name
    · have hn : p.1 = name := eq_of_beq h
      subst hn
      simp [flagsLookup, h]
    · simp only [flagsLookup, h, Bool.false_eq_true, ite_false]
      exact flagsLookup_map_keyed f g hf rest name

/-- C1: the override-resolution functions embedded in the State Engine
(`applyOverride`, both revisions) and in the Evaluation Interceptor
(`applyFlagOverride`) are extensionally equal, and all equal the reference
algorithm of spec section 4.1.1. -/
theorem applyOverride_refines_spec (d : FlagValue) (o : Option FlagOverride) :
    StateV1.applyOverride d o = Wrapper.applyFlagOverride d o ∧
    StateV2.applyOverride d o = Wrapper.applyFlagOverride d o ∧
    StateV1.applyOverride d o = SpecRef.applyOverride d o := by
  rcases o with _ | ov
  · exact ⟨rfl, rfl, rfl⟩
  · rcases ov with v | k
    · exact ⟨rfl, rfl, rfl⟩
    · cases d <;> exact ⟨rfl, rfl, rfl⟩

/-- C2: recording an evaluation for a flag that already has metadata
preserves its override field verbatim and emits no event; only a
previously-unseen flag name makes `recordEvaluation` emit `sdk_updated`. -/
theorem recordEvaluation_preserves_override (s : ToolbarState) (name : String)
    (ft : FlagType) (d e : FlagValue) (ctx : UnleashContext) :
    (∀ m, flagsLookup s.flags name = some m →
      (StateV1.recordEvaluation s name ft d e ctx).2 = [] ∧
      flagsLookup (StateV1.recordEvaluation s name ft d e ctx).1.flags name =
        some { flagType := ft, lastDefaultValue := d, lastEffectiveValue := e,
               lastContext := some ctx, override := m.override }) ∧
    (flagsLookup s.flags name = none →
      (StateV1.recordEvaluation s name ft d e ctx).2 = [ToolbarEvent.sdk_updated]) := by
  constructor
  · intro m hm
    constructor
    · simp [StateV1.recordEvaluation, hm]
    · simp [StateV1.recordEvaluation, hm, flagsLookup_upsert_self]
  · intro hn
    simp [StateV1.recordEvaluation, hn]

/-- Witness for C2: a concrete re-evaluation of an overridden flag keeps
the override `{type: 'flag', value: false}` and emits nothing. -/
theorem recordEvaluation_preserves_override_witness :
    (StateV1.recordEvaluation sampleStateOne "feature" FlagType.flag
      (FlagValue.bool true) (FlagValue.bool true) {}).2 = [] ∧
    flagsLookup (StateV1.recordEvaluation sampleStateOne "feature" FlagType.flag
      (FlagValue.bool true) (FlagValue.bool true) {}).1.flags "feature" =
      some { flagType := FlagType.flag, lastDefaultValue := FlagValue.bool true,
             lastEffectiveValue := FlagValue.bool true, lastContext := some {},
             override := some (FlagOverride.flag false) } :=
  (recordEvaluation_preserves_override sampleStateOne "feature" FlagType.flag
    (FlagValue.bool true) (FlagValue.bool true) {}).1 sampleMetaFlag rfl

/-- C7: `reEvaluateAllFlags` refreshes the default and effective values of
every flag the callback answers for, leaves a flag whose callback throws
(modelled by `none`) exactly unchanged while the others still proceed, and
always emits exactly one `sdk_updated` event after the pass. -/
theorem reEvaluateAllFlags_isolates_failures (s : ToolbarState)
    (evaluator : String → Option (FlagValue × FlagValue)) (name : String) :
    (StateV1.reEvaluateAllFlags s evaluator).2 = [ToolbarEvent.sdk_updated] ∧
    (∀ m d e, flagsLookup s.flags name = some m → evaluator name = some (d, e) →
      flagsLookup (StateV1.reEvaluateAllFlags s evaluator).1.flags name =
        some { m with lastDefaultValue := d, lastEffectiveValue := e }) ∧
    (∀ m, flagsLookup s.flags name = some m → evaluator name = none →
      flagsLookup (StateV1.reEvaluateAllFlags s evaluator).1.flags name = some m) := by
  have h := flagsLookup_map_keyed
    (fun p => (p.1,
      match evaluator p.1 with
      | some r => { p.2 with lastDefaultValue := r.1, lastEffectiveValue := r.2 }
      | none => p.2))
    (fun n mm =>
      match evaluator n with
      | some r => { mm with lastDefaultValue := r.1, lastEffectiveValue := r.2 }
      | none => mm)
    (fun _ => rfl) s.flags name
  refine ⟨rfl, ?_, ?_⟩
  · intro m d e hm he
    simp only [StateV1.reEvaluateAllFlags]
    rw [h, hm]
    simp [he]
  · intro m hm hn
    simp only [StateV1.reEvaluateAllFlags]
    rw [h, hm]
    simp [hn]

/-- Witness for C7: on a concrete two-flag state whose evaluator throws
for "bad", the "good" flag is refreshed and the "bad" flag keeps its stale
metadata. -/
theorem reEvaluateAllFlags_isolates_failures_witness :
    flagsLookup (StateV1.reEvaluateAllFlags sampleStateTwo sampleEvaluator).1.flags
        "good" =
      some { sampleMetaNoOverride with
               lastDefaultValue := FlagValue.bool false
               lastEffectiveValue := FlagValue.bool false } ∧
    flagsLookup (StateV1.reEvaluateAllFlags sampleStateTwo sampleEvaluator).1.flags
        "bad" = some sampleMetaFlag :=
  ⟨(reEvaluateAllFlags_isolates_failures sampleStateTwo sampleEvaluator
      "good").2.1 sampleMetaNoOverride (FlagValue.bool false) (FlagValue.bool false)
      rfl rfl,
   (reEvaluateAllFlags_isolates_failures sampleStateTwo sampleEvaluator
      "bad").2.2 sampleMetaFlag rfl rfl⟩

/-- C10: wrapping is idempotent: wrapping an already-wrapped client
returns that same wrapped instance unchanged, so
`wrap (wrap c) = wrap c`. -/
theorem wrapUnleashClient_idempotent (c : Wrapper.UnleashClient)
    (sm : ToolbarState) :
    Wrapper.wrapUnleashClient (Wrapper.wrapUnleashClient c sm) sm =
      Wrapper.wrapUnleashClient c sm := by
  cases c <;> simp [Wrapper.wrapUnleashClient, Wrapper.isWrappedClient]

/-- Counterexample for C3: the second revision of `setFlagOverride`
initializes `lastEffectiveValue` of a never-evaluated flag to null, not to
the override applied to a null default, so the claimed
`{name: "beta", enabled: true}` is not produced there. -/
theorem setFlagOverride_new_variant_cex :
    (flagsLookup (StateV2.setFlagOverride sampleStateEmpty "newVariantFlag"
        (some (FlagOverride.variant "beta"))).1.flags "newVariantFlag").map
        (fun m => m.lastEffectiveValue) = some FlagValue.null ∧
    some FlagValue.null ≠
      some (FlagValue.variant { name := "beta", enabled := true }) := by
  exact ⟨rfl, by decide⟩

/-- C3 (amended): for a flag with no existing metadata, the first revision
of `setFlagOverride` creates metadata with the flag type inferred from the
override's tag, null default value and context, and
`lastEffectiveValue = applyOverride null override` (so a variant override
"beta" yields `{name: "beta", enabled: true}`); the second revision
instead initializes `lastEffectiveValue` to null. Both emit one
`flag_override_changed` event. -/
theorem setFlagOverride_new_flag (s : ToolbarState) (name : String)
    (override : Option FlagOverride) (h : flagsLookup s.flags name = none) :
    flagsLookup (StateV1.setFlagOverride s name override).1.flags name =
      some { flagType :=
               match override with
               | some (FlagOverride.variant _) => FlagType.variant
               | _ => FlagType.flag
             lastDefaultValue := FlagValue.null
             lastEffectiveValue := StateV1.applyOverride FlagValue.null override
             lastContext := none
             override := override } ∧
    (StateV1.setFlagOverride s name override).2 =
      [ToolbarEvent.flag_override_changed name override] ∧
    (flagsLookup (StateV2.setFlagOverride s name override).1.flags name).map
        (fun m => m.lastEffectiveValue) = some FlagValue.null := by
  refine ⟨?_, rfl, ?_⟩
  · simp [StateV1.setFlagOverride, h, flagsLookup_upsert_self]
  · simp [StateV2.setFlagOverride, h, flagsLookup_upsert_self]

/-- Witness for C3 (amended): the spec scenario
`setFlagOverride("newVariantFlag", {Variant, "beta"})` on a never-evaluated
flag, evaluated concretely on the first revision. -/
theorem setFlagOverride_new_flag_witness :
    flagsLookup (StateV1.setFlagOverride sampleStateEmpty "newVariantFlag"
        (some (FlagOverride.variant "beta"))).1.flags "newVariantFlag" =
      some { flagType := FlagType.variant
             lastDefaultValue := FlagValue.null
             lastEffectiveValue :=
               FlagValue.variant { name := "beta", enabled := true }
             lastContext := none
             override := some (FlagOverride.variant "beta") } ∧
    (StateV1.setFlagOverride sampleStateEmpty "newVariantFlag"
        (some (FlagOverride.variant "beta"))).2 =
      [ToolbarEvent.flag_override_changed "newVariantFlag"
        (some (FlagOverride.variant "beta"))] ∧
    (flagsLookup (StateV2.setFlagOverride sampleStateEmpty "newVariantFlag"
        (some (FlagOverride.variant "beta"))).1.flags "newVariantFlag").map
        (fun m => m.lastEffectiveValue) = some FlagValue.null :=
  setFlagOverride_new_flag sampleStateEmpty "newVariantFlag"
    (some (FlagOverride.variant "beta")) rfl

/-- Counterexample for C4: on a state whose only flag has a null override,
the first revision of `resetOverrides` still emits a
`flag_override_changed` event for it (the claim demands zero events for
flags already at null); the second revision emits a bulk `sdk_updated`
instead of per-flag events. -/
theorem resetOverrides_null_override_cex :
    (∀ p ∈ sampleStateNoOverride.flags, p.2.override = none) ∧
    (StateV1.resetOverrides sampleStateNoOverride).2 =
      [ToolbarEvent.flag_override_changed "feature" none] ∧
    (StateV2.resetOverrides sampleStateNoOverride).2 =
      [ToolbarEvent.sdk_updated] := by
  exact ⟨by decide, rfl, rfl⟩

/-- C4 (amended): `resetOverrides` clears every flag's override and sets
its effective value back to the default in both revisions; the first
revision emits exactly one `flag_override_changed` per known flag — with
no regard to whether the override was non-null — and no bulk event, while
the second revision emits no per-flag events and exactly one bulk
`sdk_updated`. -/
theorem resetOverrides_behavior (s : ToolbarState) (name : String)
    (m : FlagMetadata) (h : flagsLookup s.flags name = some m) :
    flagsLookup (StateV1.resetOverrides s).1.flags name =
      some { m with override := none, lastEffectiveValue := m.lastDefaultValue } ∧
    (StateV1.resetOverrides s).2 =
      s.flags.map (fun p => ToolbarEvent.flag_override_changed p.1 none) ∧
    flagsLookup (StateV2.resetOverrides s).1.flags name =
      some { m with override := none, lastEffectiveValue := m.lastDefaultValue } ∧
    (StateV2.resetOverrides s).2 = [ToolbarEvent.sdk_updated] := by
  have h1 := flagsLookup_map_keyed
    (fun p => (p.1, { p.2 with
                        override := none
                        lastEffectiveValue := p.2.lastDefaultValue }))
    (fun _ mm => { mm with
                     override := none
                     lastEffectiveValue := mm.lastDefaultValue })
    (fun _ => rfl) s.flags name
  refine ⟨?_, rfl, ?_, rfl⟩
  · simp only [StateV1.resetOverrides]
    rw [h1, h]
    rfl
  · simp only [StateV2.resetOverrides]
    rw [h1, h]
    rfl

/-- Witness for C4 (amended): resetting a one-flag state with an override
clears it, restores the default as effective value, and emits one per-flag
event in the first revision and one bulk event in the second. -/
theorem resetOverrides_behavior_witness :
    flagsLookup (StateV1.resetOverrides sampleStateOne).1.flags "feature" =
      some { sampleMetaFlag with
               override := none
               lastEffectiveValue := sampleMetaFlag.lastDefaultValue } ∧
    (StateV1.resetOverrides sampleStateOne).2 =
      sampleStateOne.flags.map
        (fun p => ToolbarEvent.flag_override_changed p.1 none) ∧
    flagsLookup (StateV2.resetOverrides sampleStateOne).1.flags "feature" =
      some { sampleMetaFlag with
               override := none
               lastEffectiveValue := sampleMetaFlag.lastDefaultValue } ∧
    (StateV2.resetOverrides sampleStateOne).2 = [ToolbarEvent.sdk_updated] :=
  resetOverrides_behavior sampleStateOne "feature" sampleMetaFlag rfl

/-- Counterexample for C5: starting from context overrides whose
properties map holds `a = 1`, `setContextOverride` with an argument whose
properties map holds only `b = 2` replaces the map wholesale — the
existing key `a` is not retained, against the claimed key-wise merge. -/
theorem setContextOverride_properties_cex :
    (StateV1.setContextOverride sampleStateCtxProps
        sampleCtxArg).1.contextOverrides.properties = some [("b", "2")] ∧
    ("a", "1") ∉
      ((StateV1.setContextOverride sampleStateCtxProps
        sampleCtxArg).1.contextOverrides.properties.getD []) := by
  exact ⟨rfl, by decide⟩

/-- C5 (amended): `setContextOverride` shallow-merges the argument into
`contextOverrides` field by field — a known field present in the argument
wins, an absent one keeps its previous value — and the nested `properties`
map is an ordinary field in this spread: when present in the argument it
replaces the previous map wholesale (the key-wise merge of properties
happens only in `getMergedContext`); afterwards one
`context_override_changed` event carrying the full resulting override map
is emitted. -/
theorem setContextOverride_shallow_merge (s : ToolbarState)
    (ctx : UnleashContext) :
    (StateV1.setContextOverride s ctx).1.contextOverrides =
      { userId := ctx.userId <|> s.contextOverrides.userId
        sessionId := ctx.sessionId <|> s.contextOverrides.sessionId
        remoteAddress := ctx.remoteAddress <|> s.contextOverrides.remoteAddress
        environment := ctx.environment <|> s.contextOverrides.environment
        appName := ctx.appName <|> s.contextOverrides.appName
        properties := ctx.properties <|> s.contextOverrides.properties } ∧
    (StateV1.setContextOverride s ctx).2 =
      [ToolbarEvent.context_override_changed
        (StateV1.setContextOverride s ctx).1.contextOverrides] ∧
    (∀ ps, ctx.properties = some ps →
      (StateV1.setContextOverride s ctx).1.contextOverrides.properties =
        some ps) ∧
    (ctx.properties = none →
      (StateV1.setContextOverride s ctx).1.contextOverrides.properties =
        s.contextOverrides.properties) := by
  refine ⟨rfl, rfl, ?_, ?_⟩
  · intro ps hps
    simp [StateV1.setContextOverride, StateV1.spreadContext, hps]
  · intro hps
    simp [StateV1.setContextOverride, StateV1.spreadContext, hps]

/-- Witness for C5 (amended): concrete wholesale replacement of the
properties map. -/
theorem setContextOverride_shallow_merge_witness :
    (StateV1.setContextOverride sampleStateCtxProps
        sampleCtxArg).1.contextOverrides.properties = some [("b", "2")] :=
  (setContextOverride_shallow_merge sampleStateCtxProps sampleCtxArg).2.2.1
    [("b", "2")] rfl

/-- Counterexample for C6: a flag whose stored `flagType` is `'flag'`
(created by an `isEnabled`-driven evaluation) has it overwritten to
`'variant'` by a later `recordEvaluation` with the opposite type argument
(the `getVariant` path), so the stored type is not fixed at creation. -/
theorem flagType_overwritten_cex :
    (flagsLookup sampleStateNoOverride.flags "feature").map
        (fun m => m.flagType) = some FlagType.flag ∧
    (flagsLookup (StateV1.recordEvaluation sampleStateNoOverride "feature"
        FlagType.variant FlagValue.null FlagValue.null {}).1.flags "feature").map
        (fun m => m.flagType) = some FlagType.variant := by
  exact ⟨rfl, rfl⟩

/-- C6 (amended): the stored `flagType` is preserved by `setFlagOverride`
and `reEvaluateAllFlags` on an existing flag, but `recordEvaluation`
overwrites it with its type argument on every call — so one `isEnabled`
followed by one `getVariant` for the same name flips the stored type to
the most recent argument rather than keeping the first-observed one. -/
theorem flagType_follows_recordEvaluation (s : ToolbarState) (name : String)
    (m : FlagMetadata) (h : flagsLookup s.flags name = some m) :
    (∀ ft d e ctx,
      (flagsLookup (StateV1.recordEvaluation s name ft d e ctx).1.flags
          name).map (fun mm => mm.flagType) = some ft) ∧
    (∀ ov,
      (flagsLookup (StateV1.setFlagOverride s name ov).1.flags name).map
        (fun mm => mm.flagType) = some m.flagType) ∧
    (∀ evaluator,
      (flagsLookup (StateV1.reEvaluateAllFlags s evaluator).1.flags name).map
        (fun mm => mm.flagType) = some m.flagType) := by
  refine ⟨?_, ?_, ?_⟩
  · intro ft d e ctx
    simp [StateV1.recordEvaluation, h, flagsLookup_upsert_self]
  · intro ov
    simp [StateV1.setFlagOverride, h, flagsLookup_upsert_self]
  · intro evaluator
    have h1 := flagsLookup_map_keyed
      (fun p => (p.1,
        match evaluator p.1 with
        | some r => { p.2 with lastDefaultValue := r.1, lastEffectiveValue := r.2 }
        | none => p.2))
      (fun n mm =>
        match evaluator n with
        | some r => { mm with lastDefaultValue := r.1, lastEffectiveValue := r.2 }
        | none => mm)
      (fun _ => rfl) s.flags name
    simp only [StateV1.reEvaluateAllFlags]
    rw [h1, h]
    cases he : evaluator name <;> simp [he]

/-- Witness for C6 (amended): on a concrete flag stored with type
`'flag'`, a variant-typed re-record flips the stored type while a
subsequent override write would have preserved it. -/
theorem flagType_follows_recordEvaluation_witness :
    (flagsLookup (StateV1.recordEvaluation sampleStateNoOverride "feature"
        FlagType.variant FlagValue.null FlagValue.null {}).1.flags "feature").map
        (fun mm => mm.flagType) = some FlagType.variant ∧
    (flagsLookup (StateV1.setFlagOverride sampleStateNoOverride "feature"
        none).1.flags "feature").map
        (fun mm => mm.flagType) = some FlagType.flag :=
  ⟨(flagType_follows_recordEvaluation sampleStateNoOverride "feature"
      sampleMetaNoOverride rfl).1 FlagType.variant FlagValue.null FlagValue.null {},
   (flagType_follows_recordEvaluation sampleStateNoOverride "feature"
      sampleMetaNoOverride rfl).2.1 none⟩

/-- Counterexample for C8: forcing a flag on whose definition already has
a non-empty strategy list, the first revision of `applyToolbarOverrides`
keeps the existing strategies instead of replacing them with the single
always-on default strategy. -/
theorem applyToolbarOverrides_keeps_strategies_cex :
    (((ServerV1.applyToolbarOverrides sampleDefsNonEmptyStrategies
        (some sampleStateOn)).features.getD [])[0]?).map
        (fun f => f.strategies) = some (some [sampleStrategy]) ∧
    some (some [sampleStrategy]) ≠ some (some [defaultStrategy]) := by
  exact ⟨rfl, by decide⟩

/-- C8 (amended): for a feature definition whose name carries a
flag-override, both revisions of `applyToolbarOverrides` force `enabled`
to the override's boolean and force the strategy list to empty when the
override is off; when the override is on, the second revision substitutes
the single always-on default strategy, while the first revision keeps the
definition's existing strategies when they are non-empty and substitutes
the default strategy only when they are missing or empty (the spec
scenario, `enabled:false` with empty strategies, therefore yields the
non-empty default strategy list in both revisions). -/
theorem applyToolbarOverrides_flag_override (st : ToolbarState)
    (defs : ClientFeaturesResponse) (fs : List FeatureDefinition) (i : Nat)
    (h : i < fs.length) (value : Bool)
    (hfs : defs.features = some fs)
    (hov : (flagsLookup st.flags fs[i].name).bind (fun m => m.override) =
      some (FlagOverride.flag value)) :
    ((ServerV1.applyToolbarOverrides defs (some st)).features.getD [])[i]? =
      some { fs[i] with
               enabled := value
               strategies :=
                 if value then
                   match fs[i].strategies with
                   | some ss =>
                     if ss.length > 0 then some ss else some [defaultStrategy]
                   | none => some [defaultStrategy]
                 else some [] } ∧
    ((ServerV2.applyToolbarOverrides defs (some st)).features.getD [])[i]? =
      some { fs[i] with
               enabled := value
               strategies := if value then some [defaultStrategy] else some [] } := by
  constructor
  · simp only [ServerV1.applyToolbarOverrides, hfs, Option.getD_some]
    rw [List.getElem?_append_left (by simpa using h), List.getElem?_map,
      List.getElem?_eq_getElem h]
    simp [hov]
  · simp only [ServerV2.applyToolbarOverrides, hfs, Option.getD_some]
    rw [List.getElem?_map, List.getElem?_eq_getElem h]
    simp [hov]

/-- Witness for C8 (amended): the spec scenario — a `{Flag, true}` override
on a definition with `enabled:false` and empty strategies yields
`enabled:true` and the non-empty default strategy list, in both
revisions. -/
theorem applyToolbarOverrides_flag_override_witness :
    ((ServerV1.applyToolbarOverrides sampleDefsEmptyStrategies
        (some sampleStateOn)).features.getD [])[0]? =
      some { sampleFeatureEmptyStrategies with
               enabled := true
               strategies := some [defaultStrategy] } ∧
    ((ServerV2.applyToolbarOverrides sampleDefsEmptyStrategies
        (some sampleStateOn)).features.getD [])[0]? =
      some { sampleFeatureEmptyStrategies with
               enabled := true
               strategies := some [defaultStrategy] } :=
  applyToolbarOverrides_flag_override sampleStateOn sampleDefsEmptyStrategies
    [sampleFeatureEmptyStrategies] 0 (by decide) true rfl rfl

/-- Counterexample for C9: a variant-override on a feature definition that
has no `variants` array leaves the definition completely unchanged in both
revisions — in particular `enabled` is not forced to true. -/
theorem applyToolbarOverrides_no_variants_cex :
    ((((ServerV1.applyToolbarOverrides sampleDefsNoVariants
        (some sampleStateVariantOverride)).features.getD [])[0]?).map
        (fun f => f.enabled) = some false) ∧
    ((((ServerV2.applyToolbarOverrides sampleDefsNoVariants
        (some sampleStateVariantOverride)).features.getD [])[0]?).map
        (fun f => f.enabled) = some false) := by
  exact ⟨rfl, rfl⟩

/-- C9 (amended): for a feature definition whose name carries a
variant-override, both revisions of `applyToolbarOverrides` force
`enabled` to true and rewrite the variant weights — the targeted variant
to 1000 and all others to 0 (the second revision additionally stamping
`weightType: 'fix'`, the first also defaulting empty strategies) — but
only when the definition has a `variants` array; a definition without one
is returned unchanged. -/
theorem applyToolbarOverrides_variant_override (st : ToolbarState)
    (defs : ClientFeaturesResponse) (fs : List FeatureDefinition) (i : Nat)
    (h : i < fs.length) (variantKey : String)
    (hfs : defs.features = some fs)
    (hov : (flagsLookup st.flags fs[i].name).bind (fun m => m.override) =
      some (FlagOverride.variant variantKey)) :
    (∀ vs, fs[i].variants = some vs →
      ((ServerV1.applyToolbarOverrides defs (some st)).features.getD [])[i]? =
        some { fs[i] with
                 enabled := true
                 strategies :=
                   match fs[i].strategies with
                   | some ss =>
                     if ss.length > 0 then some ss else some [defaultStrategy]
                   | none => some [defaultStrategy]
                 variants := some (vs.map (fun v =>
                   { v with
                       weight := if v.name == variantKey then 1000 else 0 })) } ∧
      ((ServerV2.applyToolbarOverrides defs (some st)).features.getD [])[i]? =
        some { fs[i] with
                 enabled := true
                 variants := some (vs.map (fun v =>
                   { v with
                       weight := if v.name == variantKey then 1000 else 0
                       weightType := some "fix" })) }) ∧
    (fs[i].variants = none →
      ((ServerV1.applyToolbarOverrides defs (some st)).features.getD [])[i]? =
        some fs[i] ∧
      ((ServerV2.applyToolbarOverrides defs (some st)).features.getD [])[i]? =
        some fs[i]) := by
  constructor
  · intro vs hvs
    constructor
    · simp only [ServerV1.applyToolbarOverrides, hfs, Option.getD_some]
      rw [List.getElem?_append_left (by simpa using h), List.getElem?_map,
        List.getElem?_eq_getElem h]
      simp [hov, hvs]
    · simp only [ServerV2.applyToolbarOverrides, hfs, Option.getD_some]
      rw [List.getElem?_map, List.getElem?_eq_getElem h]
      simp [hov, hvs]
  · intro hvs
    constructor
    · simp only [ServerV1.applyToolbarOverrides, hfs, Option.getD_some]
      rw [List.getElem?_append_left (by simpa using h), List.getElem?_map,
        List.getElem?_eq_getElem h]
      simp [hov, hvs]
    · simp only [ServerV2.applyToolbarOverrides, hfs, Option.getD_some]
      rw [List.getElem?_map, List.getElem?_eq_getElem h]
      simp [hov, hvs]

/-- Witness for C9 (amended): a variant-override for "beta" on a concrete
definition with two 500-weight variants rewrites the weights to 0 and 1000
(the second revision stamping `weightType: 'fix'`). -/
theorem applyToolbarOverrides_variant_override_witness :
    ((ServerV1.applyToolbarOverrides sampleDefsWithVariants
        (some sampleStateVariantOverride)).features.getD [])[0]? =
      some { sampleFeatureWithVariants with
               enabled := true
               strategies := some [defaultStrategy]
               variants := some [{ name := "control", weight := 0 },
                                 { name := "beta", weight := 1000 }] } ∧
    ((ServerV2.applyToolbarOverrides sampleDefsWithVariants
        (some sampleStateVariantOverride)).features.getD [])[0]? =
      some { sampleFeatureWithVariants with
               enabled := true
               variants := some
                 [{ name := "control", weight := 0, weightType := some "fix" },
                  { name := "beta", weight := 1000, weightType := some "fix" }] } :=
  (applyToolbarOverrides_variant_override sampleStateVariantOverride
    sampleDefsWithVariants [sampleFeatureWithVariants] 0 (by decide) "beta"
    rfl rfl).1
    [{ name := "control", weight := 500 }, { name := "beta", weight := 500 }] rfl
